import Mathlib

/-!
Verification of the authentication and token-lifecycle subsystem of the
Night_G API server (FastAPI/Python), via a shallow embedding in Lean.

Embedded source files:
  * `api/library/is_authenticated.py`  — bearer-token authentication
  * `api/web/api/auth/google/views.py` — OAuth2 login begin/callback flow

External collaborators that are part of the repository but whose source is
not available here (the DAOs, the Google OAuth service module, settings,
`json_err_content`) are modelled from the specification; each such
definition carries a doc comment starting `Modelled from the spec:`.
Python library behaviour (`str.rsplit`, `str.split`, dict indexing, the
`jose` JWT decoder) is embedded faithfully as pure Lean functions or
oracle parameters.
-/

/-- The whitespace characters recognised by Python `str.isspace()`, which
is the separator set of `str.split()` / `str.rsplit()` with no separator:
U+0009–U+000D, U+001C–U+001F, space, U+0085 (NEL), U+00A0 (NBSP),
U+1680, U+2000–U+200A, U+2028, U+2029, U+202F, U+205F and U+3000. -/
def isPySpace (c : Char) : Bool :=
  ('\x09' ≤ c && c ≤ '\x0d') || ('\x1c' ≤ c && c ≤ '\x1f') || c = ' '
    || c = '\u0085' || c = '\u00a0' || c = '\u1680'
    || ('\u2000' ≤ c && c ≤ '\u200a')
    || c = '\u2028' || c = '\u2029' || c = '\u202f' || c = '\u205f'
    || c = '\u3000'

/-- `pyRsplitLastAux l` is Python `s.rsplit(maxsplit=1)[-1]` on the
character list `l`: drop trailing whitespace, then take the maximal run of
non-whitespace characters at the end.  Returns `none` exactly when the
list of split results is empty (all-whitespace input), in which case the
Python expression raises `IndexError`. -/
def pyRsplitLastAux (l : List Char) : Option (List Char) :=
  let r := l.reverse.dropWhile isPySpace
  if r = [] then none
  else some ((r.takeWhile (fun c => !isPySpace c)).reverse)

/-- Python `s.rsplit(maxsplit=1)[-1]` on strings (`none` = `IndexError`). -/
def pyRsplitLast (s : String) : Option String :=
  (pyRsplitLastAux s.data).map (fun l => ⟨l⟩)

/-- Python `s.split(sep)` for a one-character separator, on character
lists.  Always returns a non-empty list of fields. -/
def pySplitChar (sep : Char) : List Char → List (List Char)
  | [] => [[]]
  | c :: rest =>
    match pySplitChar sep rest with
    | [] => if c = sep then [[], []] else [[c]]
    | h :: t => if c = sep then [] :: h :: t else (c :: h) :: t

/-- Python `email.split("@")[1]` (`none` = `IndexError`): the second field
of the '@'-split, present iff the string contains at least one '@'. -/
def emailDomain (email : String) : Option String :=
  ((pySplitChar '@' email.data).map (fun l => (⟨l⟩ : String)))[1]?

/- ===== Embedding of api/library/is_authenticated.py ===== -/

/-- A user row of the `users` table, as returned by
`UserDAO.get_user` / `get_user_by_email` and projected into `UserModelDTO`. -/
structure UserRec where
  id : Nat
  username : String
  email : String
  deriving DecidableEq, Repr

/-- The payload of `fastapi.HTTPException(status_code, detail, headers)` as
raised by `is_authenticated`; the only header ever set is
`WWW-Authenticate`. -/
structure HTTPExc where
  status_code : Nat
  detail : String
  www_authenticate : String
  deriving DecidableEq, Repr

/-- Unhandled Python exceptions that can escape the embedded functions. -/
inductive PyExc where
  | indexError
  | keyError
  deriving DecidableEq, Repr

/-- Outcome of `jose.jwt.decode(token, secret, algorithms)`: raises
`ExpiredSignatureError`, raises some other `JWTError`, or returns the
decoded claim set.  Claims relevant here are integer-valued; the claim set
is an association list (a Python dict). -/
inductive DecodeResult where
  | expired
  | jwtError
  | ok (payload : List (String × Nat))
  deriving DecidableEq, Repr

/-- Python `payload[key]` lookup on the decoded dict, as an `Option`
(`none` = `KeyError`). -/
def dictGet (payload : List (String × Nat)) (key : String) : Option Nat :=
  (payload.find? (fun p => p.1 = key)).map (fun p => p.2)

/-- Result of one `is_authenticated` call: the resolved user, a raised
`HTTPException`, or an unhandled Python exception. -/
inductive AuthResult where
  | ok (user : UserRec)
  | httpError (e : HTTPExc)
  | pyError (e : PyExc)
  deriving DecidableEq, Repr

/-- Shallow embedding of `is_authenticated` from
`api/library/is_authenticated.py`.  The `jose` decoder (which depends on
`settings.token_secret_key` / `token_algorithm`) is abstracted as the
oracle `decode`; the database read `user_dao.get_user` as the read-only
map `get_user`. -/
def is_authenticated (decode : String → DecodeResult)
    (get_user : Nat → Option UserRec)
    (authorization : Option String) : AuthResult :=
  match authorization with
  | none =>
    .httpError ⟨400, "Authorization header is missing.",
      "Bearer error=\"invalid_request\""⟩
  | some auth =>
    match pyRsplitLast auth with
    | none => .pyError .indexError
    | some jwt_token =>
      match decode jwt_token with
      | .expired =>
        .httpError ⟨401, "Token has expired.",
          "Bearer error=\"invalid_token\""⟩
      | .jwtError =>
        .httpError ⟨401, "Invalid token.",
          "Bearer error=\"invalid_token\""⟩
      | .ok payload =>
        match dictGet payload "user_id" with
        | none => .pyError .keyError
        | some uid =>
          match get_user uid with
          | some user => .ok user
          | none =>
            .httpError ⟨404, "Not found user.",
              "Bearer error=\"not_found_user\""⟩

/- ===== Embedding of api/web/api/auth/google/views.py ===== -/

/-- The structured JSON error body produced by `api.utils.response`.
Modelled from the spec: `json_err_content` builds the structured error
body shape `\x7bstatus: int, error: string, message: string\x7d`. -/
structure ErrBody where
  status : Nat
  error : String
  message : String
  deriving DecidableEq, Repr

/-- Modelled from the spec: `json_err_content(status, error, message)`
(file `api/utils/response.py`, not available) packages its three arguments
into the structured error body. -/
def json_err_content (status : Nat) (error : String) (message : String) :
    ErrBody :=
  ⟨status, error, message⟩

/-- Modelled from the spec: `google.auth_url(client_id, redirect_uri)`
(file `api/services/oauth/google.py`, not available) deterministically
builds the provider authorization URL containing the given client id and
redirect URI. -/
def auth_url (client_id : String) (redirect_uri : String) : String :=
  "https://accounts.google.com/o/oauth2/v2/auth?client_id=" ++ client_id
    ++ "&redirect_uri=" ++ redirect_uri ++ "&response_type=code"

/-- The configuration surface consumed by the two views
(`api.settings.settings`). -/
structure Settings where
  google_client_id : Option String
  google_client_secret : Option String
  web_url : String
  deriving DecidableEq, Repr

/-- Exceptions that may propagate, uncaught, out of `google_callback`:
the spec-level `ProfileFetchFailed` raised by the profile fetch, a raw
network exception (never produced — the point of claim C1), the
`NotVerifiedEmailError` HTTP exception, and unhandled Python exceptions. -/
inductive RaisedExc where
  | profileFetchFailed (detail : String)
  | rawNetwork (detail : String)
  | notVerifiedEmail (status_code : Nat) (detail : String)
  | py (e : PyExc)
  deriving DecidableEq, Repr

/-- Result of one `google_login` / `google_callback` call: a
`JSONResponse` with a structured error body, a `RedirectResponse`, or an
exception propagating out of the view. -/
inductive ViewResult where
  | jsonResponse (status_code : Nat) (content : ErrBody)
  | redirect (url : String)
  | raised (e : RaisedExc)
  deriving DecidableEq, Repr

/-- Shallow embedding of `google_login` from
`api/web/api/auth/google/views.py`.  `callback_url` stands for
`str(request.url_for("google_callback"))`. -/
def google_login (settings : Settings) (callback_url : String) :
    ViewResult :=
  if settings.google_client_id = none ∨ settings.google_client_secret = none
  then
    .jsonResponse 500 (json_err_content 500 "Internal Server Error"
      "client_id or client_secret not found to create URL for Google login.")
  else
    .redirect (auth_url (settings.google_client_id.getD "") callback_url)

/-- The persistent stores touched by `google_callback`: the `users` table
(with the id the next insert will receive) and the `tokens` audit table
of `(user_id, token)` records. -/
structure DB where
  users : List UserRec
  next_user_id : Nat
  tokens : List (Nat × String)
  deriving DecidableEq, Repr

/-- Modelled from the spec: `UserDAO.get_user_by_email`
(file `api/db/dao/user_dao.py`, not available) is `UserStore.findByEmail`:
look up a user record by its unique email. -/
def get_user_by_email (db : DB) (email : String) : Option UserRec :=
  db.users.find? (fun u => u.email = email)

/-- Modelled from the spec: `UserDAO.create_user(username, email)`
(not available) is `UserStore.createUser`: insert a fresh user record and
return its new id. -/
def create_user (db : DB) (username : String) (email : String) : Nat × DB :=
  (db.next_user_id,
    ⟨⟨db.next_user_id, username, email⟩ :: db.users, db.next_user_id + 1,
      db.tokens⟩)

/-- Modelled from the spec: `TokenCodec.issue(subject)` embeds the subject
identifier in the signed token value. -/
def issueToken (user_id : Nat) : String :=
  "signed." ++ toString user_id

/-- Modelled from the spec: `TokenDAO.create_token(user_id)`
(file `api/db/dao/token_dao.py`, not available) issues a token for the
user and best-effort records it in the token store; per §4.4 a persistence
failure is logged, not propagated, and the issued token is returned
regardless.  The persistence outcome is the oracle `persist_ok`. -/
def create_token (persist_ok : Bool) (db : DB) (user_id : Nat) :
    String × DB :=
  let tok := issueToken user_id
  if persist_ok then (tok, { db with tokens := (user_id, tok) :: db.tokens })
  else (tok, db)

/-- The provider profile dict returned by the Google userinfo endpoint,
with the three fields `google_callback` reads. -/
structure UserInfo where
  email : String
  verified_email : Bool
  name : String
  deriving DecidableEq, Repr

/-- Raw outcome of the profile-fetch network round trip: a profile, or a
raw network/provider error. -/
inductive NetOutcome where
  | ok (info : UserInfo)
  | netError (detail : String)
  deriving DecidableEq, Repr

/-- Modelled from the spec: `google.get_user_info(access_token)`
(file `api/services/oauth/google.py`, not available) is
`IdentityProviderClient.fetchProfile`: one network round trip that fails
with `ProfileFetchFailed` on error.  The raw round-trip outcome is the
oracle `network`; a raw error never leaves this function untranslated. -/
def get_user_info (network : String → NetOutcome) (access_token : String) :
    Except RaisedExc UserInfo :=
  match network access_token with
  | .ok info => .ok info
  | .netError d => .error (.profileFetchFailed d)

/-- Python `urllib.parse.urljoin(base, url)` as used by `google_callback`
(joining the configured web base with the relative path `"callback"`). -/
def urljoin (base : String) (url : String) : String :=
  base ++ url

/-- Shallow embedding of `google_callback` from
`api/web/api/auth/google/views.py`.  The token exchange
`google.get_token` (not available; per the spec it fails with
`FaildRetrieveAccessTokenError` = `CodeExchangeFailed` on any non-success
response) is the oracle `get_token`; the view catches exactly that error.
Returns the response (or escaping exception) together with the final
store state. -/
def google_callback (settings : Settings)
    (get_token : String → Except Unit String)
    (network : String → NetOutcome)
    (persist_ok : Bool)
    (db : DB) (code : Option String) : ViewResult × DB :=
  match code with
  | none =>
    (.jsonResponse 400 (json_err_content 400 "Bad Request"
      "Google login faild."), db)
  | some c =>
    match get_token c with
    | .error _ =>
      (.jsonResponse 400 (json_err_content 400 "Bad Request"
        "Failed to retrieve the access token for Google login."), db)
    | .ok access_token =>
      match get_user_info network access_token with
      | .error e => (.raised e, db)
      | .ok user_info =>
        match emailDomain user_info.email with
        | none => (.raised (.py .indexError), db)
        | some _user_email_domain =>
          if !user_info.verified_email then
            (.raised (.notVerifiedEmail 400
              "Your google is not verified email address."), db)
          else
            let resolved : Nat × DB :=
              match get_user_by_email db user_info.email with
              | some user => (user.id, db)
              | none => create_user db user_info.name user_info.email
            let issued := create_token persist_ok resolved.2 resolved.1
            (.redirect (urljoin settings.web_url "callback" ++ "?" ++
              "key_token=" ++ issued.1), issued.2)

/- ===== Helper lemmas ===== -/

/-- On an all-whitespace string, Python `rsplit(maxsplit=1)` returns the
empty list, so indexing `[-1]` has no value. -/
theorem pyRsplitLast_eq_none (s : String) (h : ∀ c ∈ s.data, isPySpace c) :
    pyRsplitLast s = none := by
  have hnil : s.data.reverse.dropWhile isPySpace = [] :=
    List.dropWhile_eq_nil_iff.mpr (fun x hx => h x (List.mem_reverse.mp hx))
  simp [pyRsplitLast, pyRsplitLastAux, hnil]

/- ===== Claim theorems ===== -/

/-- C5: `is_authenticated` maps each failure domain to its response:
missing `Authorization` header → 400 (missing credential); expired token
→ 401 "Token has expired."; any other decode/signature failure → 401
"Invalid token."; a valid token whose embedded `user_id` subject does not
resolve to an existing user → 404; and when the subject resolves, the
call returns exactly the resolved user (the function is pure: `get_user`
is a read-only map and no state is altered). -/
theorem is_authenticated_error_mapping
    (decode : String → DecodeResult) (get_user : Nat → Option UserRec)
    (s tok : String) (payload : List (String × Nat)) (uid : Nat) :
    (is_authenticated decode get_user none =
      .httpError ⟨400, "Authorization header is missing.",
        "Bearer error=\"invalid_request\""⟩)
    ∧ (pyRsplitLast s = some tok → decode tok = .expired →
        is_authenticated decode get_user (some s) =
          .httpError ⟨401, "Token has expired.",
            "Bearer error=\"invalid_token\""⟩)
    ∧ (pyRsplitLast s = some tok → decode tok = .jwtError →
        is_authenticated decode get_user (some s) =
          .httpError ⟨401, "Invalid token.",
            "Bearer error=\"invalid_token\""⟩)
    ∧ (pyRsplitLast s = some tok → decode tok = .ok payload →
        dictGet payload "user_id" = some uid → get_user uid = none →
        is_authenticated decode get_user (some s) =
          .httpError ⟨404, "Not found user.",
            "Bearer error=\"not_found_user\""⟩)
    ∧ (∀ user, pyRsplitLast s = some tok → decode tok = .ok payload →
        dictGet payload "user_id" = some uid → get_user uid = some user →
        is_authenticated decode get_user (some s) = .ok user) := by
  refine ⟨rfl, ?_, ?_, ?_, ?_⟩ <;> intros <;> simp [is_authenticated, *]

/-- Witness for C5: a concrete expired-token call hits the 401 branch. -/
theorem is_authenticated_error_mapping_witness :
    is_authenticated (fun _ => DecodeResult.expired) (fun _ => none)
      (some "Bearer t") =
      .httpError ⟨401, "Token has expired.",
        "Bearer error=\"invalid_token\""⟩ :=
  (is_authenticated_error_mapping (fun _ => DecodeResult.expired)
    (fun _ => none) "Bearer t" "t" [] 0).2.1 (by decide) rfl

/-- C8: a present `Authorization` header made only of whitespace (the
empty string included) is not mapped to any structured `HTTPException`;
`authorization.rsplit(maxsplit=1)` is the empty list, and indexing it
with `[-1]` raises an unhandled `IndexError`. -/
theorem is_authenticated_blank_header_index_error
    (decode : String → DecodeResult) (get_user : Nat → Option UserRec)
    (s : String) (h : ∀ c ∈ s.data, isPySpace c) :
    is_authenticated decode get_user (some s) = .pyError .indexError := by
  simp [is_authenticated, pyRsplitLast_eq_none s h]

/-- Witness for C8: the empty header value raises `IndexError`. -/
theorem is_authenticated_blank_header_index_error_witness :
    is_authenticated (fun _ => DecodeResult.jwtError) (fun _ => none)
      (some "") = .pyError .indexError :=
  is_authenticated_blank_header_index_error
    (fun _ => DecodeResult.jwtError) (fun _ => none) "" (by decide)

/-- C10: a token that decodes successfully (signature and expiry pass)
but whose payload has no "user_id" key makes `payload["user_id"]` raise
an unhandled `KeyError`; the call does not produce the 401 invalid-token
response. -/
theorem is_authenticated_missing_user_id_key_error
    (decode : String → DecodeResult) (get_user : Nat → Option UserRec)
    (s tok : String) (payload : List (String × Nat))
    (h1 : pyRsplitLast s = some tok) (h2 : decode tok = .ok payload)
    (h3 : dictGet payload "user_id" = none) :
    is_authenticated decode get_user (some s) = .pyError .keyError := by
  simp [is_authenticated, h1, h2, h3]

/-- Witness for C10: a payload holding only a "sub" claim. -/
theorem is_authenticated_missing_user_id_key_error_witness :
    is_authenticated (fun _ => DecodeResult.ok [("sub", 5)]) (fun _ => none)
      (some "t") = .pyError .keyError :=
  is_authenticated_missing_user_id_key_error
    (fun _ => DecodeResult.ok [("sub", 5)]) (fun _ => none) "t" "t"
    [("sub", 5)] (by decide) rfl (by decide)

/-- C7: `google_login` with a missing client id or client secret returns
the 500 structured error body; with both configured it redirects to the
provider authorization URL, which contains the configured client id and
the callback redirect URI as substrings. -/
theorem google_login_spec (settings : Settings) (callback_url : String) :
    ((settings.google_client_id = none ∨
        settings.google_client_secret = none) →
      google_login settings callback_url =
        .jsonResponse 500 ⟨500, "Internal Server Error",
          "client_id or client_secret not found to create URL for Google login."⟩)
    ∧ (∀ cid cs, settings.google_client_id = some cid →
        settings.google_client_secret = some cs →
        ∃ url, google_login settings callback_url = .redirect url ∧
          (∃ a b, url.data = a ++ cid.data ++ b) ∧
          (∃ a b, url.data = a ++ callback_url.data ++ b)) := by
  constructor
  · intro h
    simp [google_login, h, json_err_content]
  · intro cid cs h1 h2
    refine ⟨auth_url cid callback_url, ?_, ?_, ?_⟩
    · simp [google_login, h1, h2]
    · exact ⟨("https://accounts.google.com/o/oauth2/v2/auth?client_id=").data,
        ("&redirect_uri=" ++ callback_url ++ "&response_type=code").data,
        by simp [auth_url]⟩
    · exact ⟨("https://accounts.google.com/o/oauth2/v2/auth?client_id="
          ++ cid ++ "&redirect_uri=").data,
        ("&response_type=code").data,
        by simp [auth_url]⟩

/-- Witness for C7: concrete configured credentials yield the redirect. -/
theorem google_login_spec_witness :
    ∃ url, google_login ⟨some "cid", some "sec", "https://app/"⟩
        "https://api/cb" = .redirect url ∧
      (∃ a b, url.data = a ++ ("cid" : String).data ++ b) ∧
      (∃ a b, url.data = a ++ ("https://api/cb" : String).data ++ b) :=
  (google_login_spec ⟨some "cid", some "sec", "https://app/"⟩
    "https://api/cb").2 "cid" "sec" rfl rfl

/-- `takeWhile` walks through a prefix that wholly satisfies `p`. -/
theorem takeWhile_append_all (p : Char → Bool) (a b : List Char)
    (ha : ∀ c ∈ a, p c = true) :
    (a ++ b).takeWhile p = a ++ b.takeWhile p := by
  induction a with
  | nil => simp
  | cons x xs ih =>
    have hx : p x = true := ha x (by simp)
    simp only [List.cons_append, List.takeWhile_cons, hx, if_true]
    rw [ih (fun c hc => ha c (by simp [hc]))]

/-- `takeWhile` keeps a list that wholly satisfies `p`. -/
theorem takeWhile_all (p : Char → Bool) (l : List Char)
    (h : ∀ c ∈ l, p c = true) : l.takeWhile p = l := by
  have := takeWhile_append_all p l [] h
  simpa using this

/-- `dropWhile` keeps a list none of whose elements satisfies `p`. -/
theorem dropWhile_all_false (p : Char → Bool) (l : List Char)
    (h : ∀ c ∈ l, p c = false) : l.dropWhile p = l := by
  cases l with
  | nil => rfl
  | cons x xs => simp [List.dropWhile_cons, h x (by simp)]

/-- The head surviving a `dropWhile` does not satisfy `p`. -/
theorem dropWhile_head_false (p : Char → Bool) (l : List Char)
    (x : Char) (xs : List Char) (h : l.dropWhile p = x :: xs) :
    p x = false := by
  induction l with
  | nil => simp at h
  | cons a as ih =>
    rw [List.dropWhile_cons] at h
    by_cases hp : p a
    · rw [if_pos hp] at h
      exact ih h
    · rw [if_neg hp] at h
      injection h with h1 h2
      subst h1
      simpa using hp

/-- A non-empty all-non-whitespace string is its own last `rsplit` token. -/
theorem pyRsplitLastAux_token (t : List Char) (ht : t ≠ [])
    (hns : ∀ c ∈ t, isPySpace c = false) :
    pyRsplitLastAux t = some t := by
  have h1 : t.reverse.dropWhile isPySpace = t.reverse :=
    dropWhile_all_false _ _ (fun c hc => hns c (List.mem_reverse.mp hc))
  have h2 : t.reverse.takeWhile (fun c => !isPySpace c) = t.reverse :=
    takeWhile_all _ _ (fun c hc => by simp [hns c (List.mem_reverse.mp hc)])
  have h3 : t.reverse ≠ [] := by simpa using ht
  simp [pyRsplitLastAux, h1, h2, h3]

/-- Anything before a space before a trailing non-empty non-whitespace
token is discarded by `rsplit(maxsplit=1)[-1]`. -/
theorem pyRsplitLastAux_bearer (pre t : List Char) (ht : t ≠ [])
    (hns : ∀ c ∈ t, isPySpace c = false) :
    pyRsplitLastAux (pre ++ ' ' :: t) = some t := by
  have hproj : ∀ c ∈ t.reverse, isPySpace c = false :=
    fun c hc => hns c (List.mem_reverse.mp hc)
  have htr : t.reverse ≠ [] := by simpa using ht
  obtain ⟨x, xs, hxxs⟩ := List.exists_cons_of_ne_nil htr
  have hx : isPySpace x = false := hproj x (by rw [hxxs]; simp)
  have hrev : (pre ++ ' ' :: t).reverse = t.reverse ++ ' ' :: pre.reverse := by
    simp
  have hdrop : (t.reverse ++ ' ' :: pre.reverse).dropWhile isPySpace
      = t.reverse ++ ' ' :: pre.reverse := by
    rw [hxxs, List.cons_append]
    simp [List.dropWhile_cons, hx]
  have htake : (t.reverse ++ ' ' :: pre.reverse).takeWhile
      (fun c => !isPySpace c) = t.reverse := by
    rw [takeWhile_append_all _ _ _ (fun c hc => by simp [hproj c hc])]
    simp [List.takeWhile_cons, isPySpace]
  have hne : t.reverse ++ ' ' :: pre.reverse ≠ [] := by
    rw [hxxs]
    simp
  simp [pyRsplitLastAux, hrev, hdrop, htake, hne]

/-- C6: `is_authenticated` extracts the credential as the last
whitespace-delimited token of the header value: every header with a
non-whitespace character decomposes as `pre ++ tok ++ trail` with `tok`
the final maximal non-whitespace run, and the extraction returns exactly
`tok`; consequently the header `"Bearer t"` and the bare header `"t"`
extract the same token and the whole call resolves identically. -/
theorem is_authenticated_last_token
    (decode : String → DecodeResult) (get_user : Nat → Option UserRec)
    (s t : String)
    (hs : ∃ c ∈ s.data, isPySpace c = false)
    (ht : t.data ≠ []) (hns : ∀ c ∈ t.data, isPySpace c = false) :
    (∃ pre tok trail : List Char,
        s.data = pre ++ tok ++ trail ∧ tok ≠ [] ∧
        (∀ c ∈ tok, isPySpace c = false) ∧
        (∀ c ∈ trail, isPySpace c = true) ∧
        (pre = [] ∨ ∃ c, isPySpace c = true ∧ pre.getLast? = some c) ∧
        pyRsplitLast s = some ⟨tok⟩)
    ∧ pyRsplitLast ("Bearer " ++ t) = some t
    ∧ pyRsplitLast t = some t
    ∧ is_authenticated decode get_user (some ("Bearer " ++ t)) =
        is_authenticated decode get_user (some t) := by
  have hbearer : pyRsplitLast ("Bearer " ++ t) = some t := by
    show (pyRsplitLastAux ("Bearer " ++ t).data).map
      (fun l => (⟨l⟩ : String)) = some t
    have hdata : ("Bearer " ++ t).data = "Bearer".data ++ ' ' :: t.data := rfl
    rw [hdata, pyRsplitLastAux_bearer "Bearer".data t.data ht hns]
    rfl
  have hbare : pyRsplitLast t = some t := by
    show (pyRsplitLastAux t.data).map (fun l => (⟨l⟩ : String)) = some t
    rw [pyRsplitLastAux_token t.data ht hns]
    rfl
  refine ⟨?_, hbearer, hbare, ?_⟩
  · set r := s.data.reverse with hr
    set rest := r.dropWhile isPySpace with hrest
    have hrestne : rest ≠ [] := by
      intro h0
      obtain ⟨c, hc, hcf⟩ := hs
      have hall := List.dropWhile_eq_nil_iff.mp h0
      have := hall c (List.mem_reverse.mpr hc)
      simp [hcf] at this
    obtain ⟨x, xs, hxxs⟩ := List.exists_cons_of_ne_nil hrestne
    have hx : isPySpace x = false := dropWhile_head_false _ _ _ _ hxxs
    set tok' := rest.takeWhile (fun c => !isPySpace c) with htok
    set pre' := rest.dropWhile (fun c => !isPySpace c) with hpre
    refine ⟨pre'.reverse, tok'.reverse, (r.takeWhile isPySpace).reverse,
      ?_, ?_, ?_, ?_, ?_, ?_⟩
    · have h1 : r.takeWhile isPySpace ++ rest = r :=
        List.takeWhile_append_dropWhile ..
      have h2 : tok' ++ pre' = rest := List.takeWhile_append_dropWhile ..
      have : (r.takeWhile isPySpace ++ (tok' ++ pre')).reverse = s.data := by
        rw [h2, h1, hr, List.reverse_reverse]
      rw [← this]
      simp [List.reverse_append]
    · have : tok' = x :: xs.takeWhile (fun c => !isPySpace c) := by
        rw [htok, hxxs, List.takeWhile_cons]
        simp [hx]
      simp [this]
    · intro c hc
      have := List.mem_takeWhile_imp (List.mem_reverse.mp hc)
      simpa using this
    · intro c hc
      exact List.mem_takeWhile_imp (List.mem_reverse.mp hc)
    · rcases hp : pre' with _ | ⟨y, ys⟩
      · exact Or.inl (by simp)
      · refine Or.inr ⟨y, ?_, ?_⟩
        · have := dropWhile_head_false _ _ _ _ (hp ▸ hpre.symm ▸ rfl : rest.dropWhile (fun c => !isPySpace c) = y :: ys)
          simpa using this
        · rw [List.getLast?_reverse]
          simp [hp]
    · show (pyRsplitLastAux s.data).map (fun l => (⟨l⟩ : String)) =
        some ⟨tok'.reverse⟩
      have : pyRsplitLastAux s.data = some tok'.reverse := by
        simp [pyRsplitLastAux, ← hr, ← hrest, hrestne, htok]
      rw [this]
      rfl
  · simp [is_authenticated, hbearer, hbare]

/-- Witness for C6: a concrete valid token with and without the
`"Bearer "` prefix resolves identically. -/
theorem is_authenticated_last_token_witness :
    is_authenticated (fun _ => DecodeResult.ok [("user_id", 1)])
      (fun uid => if uid = 1 then some ⟨1, "u", "u@x"⟩ else none)
      (some "Bearer tok") =
    is_authenticated (fun _ => DecodeResult.ok [("user_id", 1)])
      (fun uid => if uid = 1 then some ⟨1, "u", "u@x"⟩ else none)
      (some "tok") :=
  (is_authenticated_last_token (fun _ => DecodeResult.ok [("user_id", 1)])
    (fun uid => if uid = 1 then some ⟨1, "u", "u@x"⟩ else none)
    "Bearer tok" "tok" (by decide) (by decide) (by decide)).2.2.2

/-- The separator never appearing, Python `split` returns the one-field
list, so indexing `[1]` has no value. -/
theorem pySplitChar_no_sep (sep : Char) (l : List Char)
    (h : ∀ c ∈ l, c ≠ sep) : pySplitChar sep l = [l] := by
  induction l with
  | nil => rfl
  | cons x xs ih =>
    rw [pySplitChar, ih (fun c hc => h c (by simp [hc]))]
    simp [h x (by simp)]

/-- An email without '@' makes `email.split("@")[1]` raise `IndexError`. -/
theorem emailDomain_eq_none (email : String)
    (h : ∀ c ∈ email.data, c ≠ '@') : emailDomain email = none := by
  simp [emailDomain, pySplitChar_no_sep '@' email.data h]

/-- The token value `create_token` returns does not depend on the
persistence outcome. -/
theorem create_token_fst (p : Bool) (db : DB) (u : Nat) :
    (create_token p db u).1 = issueToken u := by
  cases p <;> rfl

/-- `create_token` never touches the `users` table. -/
theorem create_token_users (p : Bool) (db : DB) (u : Nat) :
    (create_token p db u).2.users = db.users := by
  cases p <;> rfl

/-- `create_token` never touches the user-id counter. -/
theorem create_token_next (p : Bool) (db : DB) (u : Nat) :
    (create_token p db u).2.next_user_id = db.next_user_id := by
  cases p <;> rfl

/-- Success path of `google_callback` when the email is already known:
redirect with a token for the existing user's id; only the token store
may change. -/
theorem google_callback_found (settings : Settings)
    (get_token : String → Except Unit String) (network : String → NetOutcome)
    (persist_ok : Bool) (db : DB) (c at' dom : String) (info : UserInfo)
    (u : UserRec)
    (h1 : get_token c = .ok at') (h2 : network at' = .ok info)
    (hdom : emailDomain info.email = some dom)
    (hv : info.verified_email = true)
    (hu : get_user_by_email db info.email = some u) :
    google_callback settings get_token network persist_ok db (some c) =
      (.redirect (urljoin settings.web_url "callback" ++ "?" ++
        "key_token=" ++ issueToken u.id),
       (create_token persist_ok db u.id).2) := by
  simp [google_callback, h1, get_user_info, h2, hdom, hv, hu,
    create_token_fst]

/-- Success path of `google_callback` when the email is unseen: a fresh
user is created and the redirect carries a token for the fresh id. -/
theorem google_callback_new (settings : Settings)
    (get_token : String → Except Unit String) (network : String → NetOutcome)
    (persist_ok : Bool) (db : DB) (c at' dom : String) (info : UserInfo)
    (h1 : get_token c = .ok at') (h2 : network at' = .ok info)
    (hdom : emailDomain info.email = some dom)
    (hv : info.verified_email = true)
    (hu : get_user_by_email db info.email = none) :
    google_callback settings get_token network persist_ok db (some c) =
      (.redirect (urljoin settings.web_url "callback" ++ "?" ++
        "key_token=" ++ issueToken db.next_user_id),
       (create_token persist_ok
         (create_user db info.name info.email).2 db.next_user_id).2) := by
  simp [google_callback, h1, get_user_info, h2, hdom, hv, hu,
    create_token_fst, create_user]

/-- C9: when the fetched profile's email contains no '@', the call
raises an unhandled `IndexError` at `user_email.split("@")[1]`, with the
stores untouched — and since the split precedes the `verified_email`
check, this holds whatever the value of the flag. -/
theorem google_callback_no_at_index_error (settings : Settings)
    (get_token : String → Except Unit String) (network : String → NetOutcome)
    (persist_ok : Bool) (db : DB) (c at' : String) (info : UserInfo)
    (h1 : get_token c = .ok at') (h2 : network at' = .ok info)
    (h3 : ∀ ch ∈ info.email.data, ch ≠ '@') :
    google_callback settings get_token network persist_ok db (some c) =
      (.raised (.py .indexError), db) := by
  simp [google_callback, h1, get_user_info, h2, emailDomain_eq_none _ h3]

/-- Witness for C9: an unverified '@'-less profile raises `IndexError`
(not the unverified-email error). -/
theorem google_callback_no_at_index_error_witness :
    google_callback ⟨some "cid", some "sec", "https://app/"⟩
      (fun _ => .ok "at") (fun _ => .ok ⟨"noatsign", false, "Bob"⟩)
      true ⟨[], 1, []⟩ (some "code") =
      (.raised (.py .indexError), ⟨[], 1, []⟩) :=
  google_callback_no_at_index_error ⟨some "cid", some "sec", "https://app/"⟩
    (fun _ => .ok "at") (fun _ => .ok ⟨"noatsign", false, "Bob"⟩)
    true ⟨[], 1, []⟩ "code" "at" ⟨"noatsign", false, "Bob"⟩
    rfl rfl (by decide)

/-- C1: a failing profile-fetch round trip surfaces as the structured
`ProfileFetchFailed` error of the taxonomy, and no raw network exception
ever escapes `google_callback` on any input. -/
theorem google_callback_profile_fetch_failed (settings : Settings)
    (get_token : String → Except Unit String) (network : String → NetOutcome)
    (persist_ok : Bool) (db : DB) (c at' d : String)
    (h1 : get_token c = .ok at')
    (h2 : network at' = .netError d) :
    (google_callback settings get_token network persist_ok db (some c) =
      (.raised (.profileFetchFailed d), db))
    ∧ ∀ (code : Option String) (db0 : DB) (raw : String),
        (google_callback settings get_token network persist_ok db0
          code).1 ≠ .raised (.rawNetwork raw) := by
  constructor
  · simp [google_callback, h1, get_user_info, h2]
  · intro code db0 raw
    rcases code with _ | c'
    · simp [google_callback]
    · rcases hgt : get_token c' with e | at2
      · simp [google_callback, hgt]
      · rcases hnet : network at2 with info | d'
        · rcases hdom : emailDomain info.email with _ | dom
          · simp [google_callback, hgt, get_user_info, hnet, hdom]
          · by_cases hv : info.verified_email
            · rcases hu : get_user_by_email db0 info.email with _ | u <;>
                simp [google_callback, hgt, get_user_info, hnet, hdom, hv, hu]
            · simp [google_callback, hgt, get_user_info, hnet, hdom, hv]
        · simp [google_callback, hgt, get_user_info, hnet]

/-- Witness for C1: a concrete failing fetch yields `ProfileFetchFailed`. -/
theorem google_callback_profile_fetch_failed_witness :
    google_callback ⟨some "cid", some "sec", "https://app/"⟩
      (fun _ => .ok "at") (fun _ => .netError "timeout")
      true ⟨[], 1, []⟩ (some "code") =
      (.raised (.profileFetchFailed "timeout"), ⟨[], 1, []⟩) :=
  (google_callback_profile_fetch_failed ⟨some "cid", some "sec", "https://app/"⟩
    (fun _ => .ok "at") (fun _ => .netError "timeout")
    true ⟨[], 1, []⟩ "code" "at" "timeout" rfl rfl).1

/-- C2: on the token-issuance step, a failing `TokenStore` persistence
(`persist_ok = false`) leaves the user-visible outcome untouched: the
response equals the one of a successful persistence, and it is the
success redirect carrying the issued token. -/
theorem google_callback_persist_failure_invisible (settings : Settings)
    (get_token : String → Except Unit String) (network : String → NetOutcome)
    (db : DB) (c at' dom : String) (info : UserInfo)
    (h1 : get_token c = .ok at') (h2 : network at' = .ok info)
    (hdom : emailDomain info.email = some dom)
    (hv : info.verified_email = true) :
    ((google_callback settings get_token network true db (some c)).1 =
      (google_callback settings get_token network false db (some c)).1)
    ∧ ∃ uid, (google_callback settings get_token network false db
        (some c)).1 =
      .redirect (urljoin settings.web_url "callback" ++ "?" ++
        "key_token=" ++ issueToken uid) := by
  rcases hu : get_user_by_email db info.email with _ | u
  · constructor
    · rw [google_callback_new settings get_token network true db c at' dom
          info h1 h2 hdom hv hu,
        google_callback_new settings get_token network false db c at' dom
          info h1 h2 hdom hv hu]
    · exact ⟨db.next_user_id, by
        rw [google_callback_new settings get_token network false db c at'
          dom info h1 h2 hdom hv hu]⟩
  · constructor
    · rw [google_callback_found settings get_token network true db c at' dom
          info u h1 h2 hdom hv hu,
        google_callback_found settings get_token network false db c at' dom
          info u h1 h2 hdom hv hu]
    · exact ⟨u.id, by
        rw [google_callback_found settings get_token network false db c at'
          dom info u h1 h2 hdom hv hu]⟩

/-- Witness for C2: a concrete call with failing persistence still
redirects with the issued token. -/
theorem google_callback_persist_failure_invisible_witness :
    (google_callback ⟨some "cid", some "sec", "https://app/"⟩
      (fun _ => .ok "at") (fun _ => .ok ⟨"a@b", true, "Bob"⟩)
      true ⟨[], 1, []⟩ (some "code")).1 =
    (google_callback ⟨some "cid", some "sec", "https://app/"⟩
      (fun _ => .ok "at") (fun _ => .ok ⟨"a@b", true, "Bob"⟩)
      false ⟨[], 1, []⟩ (some "code")).1 :=
  (google_callback_persist_failure_invisible
    ⟨some "cid", some "sec", "https://app/"⟩
    (fun _ => .ok "at") (fun _ => .ok ⟨"a@b", true, "Bob"⟩)
    ⟨[], 1, []⟩ "code" "at" "b" ⟨"a@b", true, "Bob"⟩
    rfl rfl (by decide) rfl).1

/-- C3: find-or-create on the email key.  Starting from a store where the
verified email is unseen, a first successful callback creates the user
and redirects with a token for its fresh id `uid`; a second successful
callback with the same email finds that record, redirects with a token
for the same `uid`, and adds no second user record. -/
theorem google_callback_find_or_create (settings : Settings)
    (gt1 gt2 : String → Except Unit String) (net1 net2 : String → NetOutcome)
    (p1 p2 : Bool) (db : DB) (c1 c2 at1 at2 dom : String)
    (info1 info2 : UserInfo)
    (h1 : gt1 c1 = .ok at1) (h2 : net1 at1 = .ok info1)
    (hdom : emailDomain info1.email = some dom)
    (hv1 : info1.verified_email = true)
    (hunseen : get_user_by_email db info1.email = none)
    (h5 : gt2 c2 = .ok at2) (h6 : net2 at2 = .ok info2)
    (hsame : info2.email = info1.email)
    (hv2 : info2.verified_email = true) :
    ∃ uid db1,
      google_callback settings gt1 net1 p1 db (some c1) =
        (.redirect (urljoin settings.web_url "callback" ++ "?" ++
          "key_token=" ++ issueToken uid), db1) ∧
      get_user_by_email db1 info2.email =
        some ⟨uid, info1.name, info1.email⟩ ∧
      (google_callback settings gt2 net2 p2 db1 (some c2)).1 =
        .redirect (urljoin settings.web_url "callback" ++ "?" ++
          "key_token=" ++ issueToken uid) ∧
      (google_callback settings gt2 net2 p2 db1 (some c2)).2.users =
        db1.users := by
  refine ⟨db.next_user_id,
    (create_token p1 (create_user db info1.name info1.email).2
      db.next_user_id).2, ?_, ?_, ?_, ?_⟩
  · exact google_callback_new settings gt1 net1 p1 db c1 at1 dom info1
      h1 h2 hdom hv1 hunseen
  · rw [hsame]
    simp [get_user_by_email, create_token_users, create_user, List.find?]
  · have hdom2 : emailDomain info2.email = some dom := by
      rw [hsame]; exact hdom
    have hfound : get_user_by_email
        (create_token p1 (create_user db info1.name info1.email).2
          db.next_user_id).2 info2.email =
        some ⟨db.next_user_id, info1.name, info1.email⟩ := by
      rw [hsame]
      simp [get_user_by_email, create_token_users, create_user, List.find?]
    rw [google_callback_found settings gt2 net2 p2 _ c2 at2 dom info2
      ⟨db.next_user_id, info1.name, info1.email⟩ h5 h6 hdom2 hv2 hfound]
  · have hdom2 : emailDomain info2.email = some dom := by
      rw [hsame]; exact hdom
    have hfound : get_user_by_email
        (create_token p1 (create_user db info1.name info1.email).2
          db.next_user_id).2 info2.email =
        some ⟨db.next_user_id, info1.name, info1.email⟩ := by
      rw [hsame]
      simp [get_user_by_email, create_token_users, create_user, List.find?]
    rw [google_callback_found settings gt2 net2 p2 _ c2 at2 dom info2
      ⟨db.next_user_id, info1.name, info1.email⟩ h5 h6 hdom2 hv2 hfound]
    exact create_token_users ..

/-- Witness for C3: two concrete callbacks with the same unseen email. -/
theorem google_callback_find_or_create_witness :
    ∃ uid db1,
      google_callback ⟨some "cid", some "sec", "https://app/"⟩
        (fun _ => .ok "at") (fun _ => .ok ⟨"a@b", true, "Bob"⟩)
        true ⟨[], 1, []⟩ (some "code1") =
        (.redirect (urljoin "https://app/" "callback" ++ "?" ++
          "key_token=" ++ issueToken uid), db1) ∧
      get_user_by_email db1 ("a@b" : String) =
        some ⟨uid, "Bob", "a@b"⟩ ∧
      (google_callback ⟨some "cid", some "sec", "https://app/"⟩
        (fun _ => .ok "at") (fun _ => .ok ⟨"a@b", true, "Bob"⟩)
        true db1 (some "code2")).1 =
        .redirect (urljoin "https://app/" "callback" ++ "?" ++
          "key_token=" ++ issueToken uid) ∧
      (google_callback ⟨some "cid", some "sec", "https://app/"⟩
        (fun _ => .ok "at") (fun _ => .ok ⟨"a@b", true, "Bob"⟩)
        true db1 (some "code2")).2.users = db1.users :=
  google_callback_find_or_create ⟨some "cid", some "sec", "https://app/"⟩
    (fun _ => .ok "at") (fun _ => .ok "at")
    (fun _ => .ok ⟨"a@b", true, "Bob"⟩) (fun _ => .ok ⟨"a@b", true, "Bob"⟩)
    true true ⟨[], 1, []⟩ "code1" "code2" "at" "at" "b"
    ⟨"a@b", true, "Bob"⟩ ⟨"a@b", true, "Bob"⟩
    rfl rfl (by decide) rfl rfl rfl rfl rfl rfl

/-- C4 counterexample: a profile with `verified_email = false` whose
email has no '@' does not fail with the unverified-email error — it
raises `IndexError` first, so the claim's universally quantified
conclusion is false at this input. -/
theorem google_callback_unverified_claim_false :
    google_callback ⟨some "cid", some "sec", "https://app/"⟩
      (fun _ => .ok "at") (fun _ => .ok ⟨"noatsign", false, "Bob"⟩)
      true ⟨[], 1, []⟩ (some "code") ≠
      (.raised (.notVerifiedEmail 400
        "Your google is not verified email address."), ⟨[], 1, []⟩) ∧
    google_callback ⟨some "cid", some "sec", "https://app/"⟩
      (fun _ => .ok "at") (fun _ => .ok ⟨"noatsign", false, "Bob"⟩)
      true ⟨[], 1, []⟩ (some "code") =
      (.raised (.py .indexError), ⟨[], 1, []⟩) := by
  constructor
  · decide
  · decide

/-- C4 (amended): every callback invocation whose fetched profile has
`verified_email = false` and whose email contains an '@' raises the
`NotVerifiedEmailError` (400-class) before any user lookup, user
creation or token record: the stores come back exactly unchanged. -/
theorem google_callback_unverified_no_side_effects (settings : Settings)
    (get_token : String → Except Unit String) (network : String → NetOutcome)
    (persist_ok : Bool) (db : DB) (c at' dom : String) (info : UserInfo)
    (h1 : get_token c = .ok at') (h2 : network at' = .ok info)
    (hdom : emailDomain info.email = some dom)
    (hv : info.verified_email = false) :
    google_callback settings get_token network persist_ok db (some c) =
      (.raised (.notVerifiedEmail 400
        "Your google is not verified email address."), db) := by
  simp [google_callback, h1, get_user_info, h2, hdom, hv]

/-- Witness for C4 (amended): a concrete unverified profile with a
well-formed email. -/
theorem google_callback_unverified_no_side_effects_witness :
    google_callback ⟨some "cid", some "sec", "https://app/"⟩
      (fun _ => .ok "at") (fun _ => .ok ⟨"a@b", false, "Bob"⟩)
      true ⟨[], 1, []⟩ (some "code") =
      (.raised (.notVerifiedEmail 400
        "Your google is not verified email address."), ⟨[], 1, []⟩) :=
  google_callback_unverified_no_side_effects
    ⟨some "cid", some "sec", "https://app/"⟩
    (fun _ => .ok "at") (fun _ => .ok ⟨"a@b", false, "Bob"⟩)
    true ⟨[], 1, []⟩ "code" "at" "b" ⟨"a@b", false, "Bob"⟩
    rfl rfl (by decide) rfl
